import Mathlib

/-!
# go-gpt3: chat response accessors and the GPT3client dispatcher

A shallow embedding of `chat_modesl.go` (the `ChatCompletionResponse` accessors)
and `client-gpt3.go` (`GPT3client.DoOnce` / `GPT3client.DoStream`).

Conventions of the embedding:

* a Go pointer `*T` that may be `nil` is an `Option T` (`none` is `nil`);
* a Go slice is a `List` (a `nil` slice and an empty slice both have length 0);
* Go `string` is `String`, Go `int` is `Int` (no arithmetic is performed on it);
* a method with a pointer receiver that assigns through the receiver returns
  the new contents of the receiver;
* calls into the `Client` interface are recorded in an event trace.
-/

namespace Gpt3

/-! ## Data model (`chat_modesl.go`) -/

/-- The Go type `EngineType` (a string type declared outside the two source files). -/
abbrev EngineType := String

/-- Go struct `ChatCompletionMessage`. -/
structure ChatCompletionMessage where
  Role : String
  Content : String
  deriving DecidableEq, Repr, Inhabited

/-- Go struct `ChatCompletionRequest`. The `float32` fields are kept as their
bit patterns; the dispatcher leaves all optional controls at their zero value. -/
structure ChatCompletionRequest where
  Model : EngineType
  Messages : List ChatCompletionMessage
  MaxTokens : Option Int := none
  Temperature : Option Nat := none
  TopP : Option Nat := none
  N : Option Int := none
  Stop : List String := []
  PresencePenalty : Nat := 0
  FrequencyPenalty : Nat := 0
  LogitBias : List (String × String) := []
  Stream : Bool := false
  deriving DecidableEq, Repr

/-- Go struct `ChatCompletionResponseChoiceMessage`. -/
structure ChatCompletionResponseChoiceMessage where
  Role : String := ""
  Content : String := ""
  deriving DecidableEq, Repr

/-- Go struct `ChatCompletionResponseChoice`. -/
structure ChatCompletionResponseChoice where
  Message : ChatCompletionResponseChoiceMessage := {}
  FinishReason : String := ""
  deriving DecidableEq, Repr

/-- Go struct `ChatCompletionResponseUsage`. -/
structure ChatCompletionResponseUsage where
  TotalTokens : Int := 0
  deriving DecidableEq, Repr

/-- Go struct `ChatCompletionResponse`. The default field values are the Go
zero value, so `{}` is `ChatCompletionResponse{}`. -/
structure ChatCompletionResponse where
  Choices : List ChatCompletionResponseChoice := []
  Usage : ChatCompletionResponseUsage := {}
  deriving DecidableEq, Repr

namespace ChatCompletionResponse

/-- Method `func (cr *ChatCompletionResponse) CanContinue() bool`. -/
def CanContinue (cr : Option ChatCompletionResponse) : Bool :=
  match cr with
  | none => false
  | some r =>
    if h : 0 < r.Choices.length then
      decide ((r.Choices.get ⟨0, h⟩).FinishReason = "length")
    else
      false

/-- Method `func (cr *ChatCompletionResponse) Text() string`. -/
def Text (cr : Option ChatCompletionResponse) : String :=
  match cr with
  | none => ""
  | some r =>
    if h : 0 < r.Choices.length then
      (r.Choices.get ⟨0, h⟩).Message.Content
    else
      ""

/-- Method `func (cr *ChatCompletionResponse) Role() string`. -/
def Role (cr : Option ChatCompletionResponse) : String :=
  match cr with
  | none => "assistant"
  | some r =>
    if h : 0 < r.Choices.length then
      (r.Choices.get ⟨0, h⟩).Message.Role
    else
      "assistant"

/-- Method `func (cr *ChatCompletionResponse) TotalTokens() int`. -/
def TotalTokens (cr : Option ChatCompletionResponse) : Int :=
  match cr with
  | none => 0
  | some r => r.Usage.TotalTokens

/-- Method `func (cr *ChatCompletionResponse) Reset()`: the result is the receiver
after the call (`nil` stays `nil`, otherwise the pointee becomes the zero value). -/
def Reset (cr : Option ChatCompletionResponse) : Option ChatCompletionResponse :=
  match cr with
  | none => none
  | some _ => some {}

end ChatCompletionResponse

/-! ## Dispatcher (`client-gpt3.go`) -/

/-- Modelled from the spec: the Go struct `CompletionRequest` (the spec's
Single-shot Request) is declared outside the two source files. Only the two
fields the dispatcher assigns are kept: the prompt fragments and the token cap. -/
structure CompletionRequest where
  Prompt : List String := []
  MaxTokens : Option Int := none
  deriving DecidableEq, Repr

/-- Modelled from the spec: the helper `IntPtr` is declared outside the two
source files; it returns a pointer to a copy of its argument, which is how the
configured generation cap reaches the `MaxTokens *int` field. -/
def IntPtr (v : Int) : Option Int := some v

/-- A Go `error` value, tagged by where it was created. `errors.New` allocates a
fresh value on every call, so an error made inside the dispatcher is never equal
to one handed back by the underlying client. -/
inductive GoError where
  | errorsNew (text : String)
  | ofClient (text : String)
  deriving DecidableEq, Repr

/-- A non-nil Go interface value of type `CompletionResponseInterface`: the
dynamic type together with the (possibly nil) pointer it holds. The type `ρ`
stands for the legacy `CompletionResponse`, declared outside the source files. -/
inductive CompletionResponseInterface (ρ : Type) where
  | chat (cr : Option ChatCompletionResponse)
  | completion (cr : Option ρ)
  deriving DecidableEq, Repr

/-- The Go interface `Client`, restricted to the five methods the dispatcher
uses. A blocking method yields its response pointer and its error; a streaming
method yields the chunks it hands to the `onData` callback, in order, and its
error. The `context.Context` argument is forwarded untouched and is not kept. -/
structure Client (ρ : Type) where
  DefaultEngine : EngineType
  Completion : CompletionRequest → Option ρ × Option String
  ChatCompletion : ChatCompletionRequest → Option ChatCompletionResponse × Option String
  CompletionStream : CompletionRequest → List (CompletionResponseInterface ρ) × Option String
  ChatCompletionStream :
    ChatCompletionRequest → List (CompletionResponseInterface ρ) × Option String

/-- Go struct `GPT3client`. -/
structure GPT3client (ρ : Type) where
  client : Client ρ
  maxtokens : Int

/-- One invocation of a method of the underlying `Client`, with its request. -/
inductive ClientCall where
  | Completion (request : CompletionRequest)
  | ChatCompletion (request : ChatCompletionRequest)
  | CompletionStream (request : CompletionRequest)
  | ChatCompletionStream (request : ChatCompletionRequest)
  deriving DecidableEq, Repr

/-- An observable effect of a dispatcher operation: a call into the underlying
client, or one invocation of the caller-supplied streaming callback. -/
inductive Event (ρ : Type) where
  | call (c : ClientCall)
  | onData (cr : CompletionResponseInterface ρ)
  deriving DecidableEq, Repr

/-- The client calls of a trace, in order. -/
def calls {ρ : Type} (trace : List (Event ρ)) : List ClientCall :=
  trace.filterMap fun e =>
    match e with
    | .call c => some c
    | .onData _ => none

/-- The chunks handed to the streaming callback in a trace, in order. -/
def callbacks {ρ : Type} (trace : List (Event ρ)) : List (CompletionResponseInterface ρ) :=
  trace.filterMap fun e =>
    match e with
    | .call _ => none
    | .onData cr => some cr

/-- What `DoOnce` returns (`response` is `none` for a nil interface value),
together with the effects it performed. -/
structure DoOnceResult (ρ : Type) where
  response : Option (CompletionResponseInterface ρ)
  err : Option GoError
  trace : List (Event ρ)

/-- What `DoStream` returns, together with the effects it performed. -/
structure DoStreamResult (ρ : Type) where
  err : Option GoError
  trace : List (Event ρ)

/-- The text of the error both dispatcher operations build with `errors.New`. -/
def emptySayText : String := "您得说些什么。"

/-- The prompt assembly loop of `DoStream`:
`text := make([]string, len(say)); for idx, v := range say { text[idx] = v.Content }`. -/
def assembleText (say : List ChatCompletionMessage) : List String :=
  say.enum.foldl (fun text iv => text.set iv.1 iv.2.Content) (List.replicate say.length "")

section Dispatcher

variable {ρ : Type}

/-- Method `func (c *GPT3client) DoStream(ctx, say, fn) error`. The two engine
constants are declared outside the source files and are parameters. -/
def GPT3client.DoStream (Gpt35TurboEngine Gpt35Turbo0301Engine : EngineType)
    (c : GPT3client ρ) (say : List ChatCompletionMessage) : DoStreamResult ρ :=
  if say.length = 0 then
    { err := some (GoError.errorsNew emptySayText), trace := [] }
  else if c.client.DefaultEngine = Gpt35TurboEngine ∨
      c.client.DefaultEngine = Gpt35Turbo0301Engine then
    let request : ChatCompletionRequest :=
      { Model := c.client.DefaultEngine, Messages := say, MaxTokens := IntPtr c.maxtokens }
    let r := c.client.ChatCompletionStream request
    { err := r.2.map GoError.ofClient
      trace := Event.call (ClientCall.ChatCompletionStream request) :: r.1.map Event.onData }
  else
    let text := assembleText say
    let request : CompletionRequest := { Prompt := text, MaxTokens := IntPtr c.maxtokens }
    let r := c.client.CompletionStream request
    { err := r.2.map GoError.ofClient
      trace := Event.call (ClientCall.CompletionStream request) :: r.1.map Event.onData }

/-- Method `func (c *GPT3client) DoOnce(ctx, say) (CompletionResponseInterface, error)`.
The two engine constants are declared outside the source files and are
parameters. -/
def GPT3client.DoOnce (Gpt35TurboEngine Gpt35Turbo0301Engine : EngineType)
    (c : GPT3client ρ) (say : List ChatCompletionMessage) : DoOnceResult ρ :=
  if h : say.length = 0 then
    { response := none, err := some (GoError.errorsNew emptySayText), trace := [] }
  else if c.client.DefaultEngine = Gpt35TurboEngine ∨
      c.client.DefaultEngine = Gpt35Turbo0301Engine then
    let request : ChatCompletionRequest :=
      { Model := Gpt35TurboEngine, Messages := say, MaxTokens := IntPtr c.maxtokens }
    let r := c.client.ChatCompletion request
    { response := some (CompletionResponseInterface.chat r.1)
      err := r.2.map GoError.ofClient
      trace := [Event.call (ClientCall.ChatCompletion request)] }
  else
    let request : CompletionRequest :=
      { Prompt := [(say.get ⟨0, Nat.pos_of_ne_zero h⟩).Content]
        MaxTokens := IntPtr c.maxtokens }
    let r := c.client.Completion request
    { response := some (CompletionResponseInterface.completion r.1)
      err := r.2.map GoError.ofClient
      trace := [Event.call (ClientCall.Completion request)] }

end Dispatcher

/-! ## Concrete instances used to exercise the definitions -/

/-- A streamed chunk whose delta holds only content (role absent). -/
def contentOnlyChunk : ChatCompletionResponse :=
  { Choices := [{ Message := { Role := "", Content := "块" }, FinishReason := "" }] }

/-- A client that answers every call with one fixed response and no error. -/
def echoClient (engine : EngineType) : Client Unit where
  DefaultEngine := engine
  Completion := fun _ => (some (), none)
  ChatCompletion := fun _ => (some contentOnlyChunk, none)
  CompletionStream := fun _ => ([CompletionResponseInterface.completion (some ())], none)
  ChatCompletionStream := fun _ =>
    ([CompletionResponseInterface.chat (some contentOnlyChunk)], none)

/-- A two-turn conversation. -/
def sampleSay : List ChatCompletionMessage :=
  [{ Role := "system", Content := "be brief" }, { Role := "user", Content := "hello" }]

/-! ## The response accessors -/

namespace ChatCompletionResponse

/-- With at least one choice, `Role` is the first choice's role, whatever it is. -/
theorem Role_cons (ch : ChatCompletionResponseChoice)
    (rest : List ChatCompletionResponseChoice) (u : ChatCompletionResponseUsage) :
    Role (some { Choices := ch :: rest, Usage := u }) = ch.Message.Role := by
  simp [Role]

/-- With at least one choice, `Text` is the first choice's content. -/
theorem Text_cons (ch : ChatCompletionResponseChoice)
    (rest : List ChatCompletionResponseChoice) (u : ChatCompletionResponseUsage) :
    Text (some { Choices := ch :: rest, Usage := u }) = ch.Message.Content := by
  simp [Text]

/-- With at least one choice, `CanContinue` tests the first choice's finish reason. -/
theorem CanContinue_cons (ch : ChatCompletionResponseChoice)
    (rest : List ChatCompletionResponseChoice) (u : ChatCompletionResponseUsage) :
    CanContinue (some { Choices := ch :: rest, Usage := u }) =
      decide (ch.FinishReason = "length") := by
  simp [CanContinue]

/-- C1, as stated, fails: on a chunk whose only choice carries content but an
absent (empty) role, `Role` returns the empty string and not "assistant". -/
theorem Role_absent_role_counterexample :
    contentOnlyChunk.Choices.map (fun ch => ch.Message.Role) = [""] ∧
      Role (some contentOnlyChunk) = "" ∧
      Role (some contentOnlyChunk) ≠ "assistant" := by
  decide

/-- C1 (amended): `Role` returns the role of the first choice verbatim whenever
the response has at least one choice (so the empty string when that role is
absent), and returns "assistant" exactly in the remaining cases: a nil response
and a response without choices. -/
theorem Role_spec (ch : ChatCompletionResponseChoice)
    (rest : List ChatCompletionResponseChoice) (u : ChatCompletionResponseUsage) :
    Role (some { Choices := ch :: rest, Usage := u }) = ch.Message.Role ∧
      Role (some { Choices := [], Usage := u }) = "assistant" ∧
      Role none = "assistant" :=
  ⟨Role_cons ch rest u, rfl, rfl⟩

/-- C2: `CanContinue` is true if and only if the response is non-nil, has at
least one choice, and the first choice's finish reason is exactly "length";
later choices play no part, and without choices the result is false. -/
theorem CanContinue_iff (r : Option ChatCompletionResponse) :
    CanContinue r = true ↔
      ∃ cr ch rest, r = some cr ∧ cr.Choices = ch :: rest ∧ ch.FinishReason = "length" := by
  constructor
  · intro h
    match r, h with
    | some { Choices := ch :: rest, Usage := u }, h =>
      rw [CanContinue_cons] at h
      exact ⟨_, ch, rest, rfl, rfl, of_decide_eq_true h⟩
  · rintro ⟨cr, ch, rest, rfl, hc, hf⟩
    obtain ⟨cs, u⟩ := cr
    simp only at hc
    subst hc
    rw [CanContinue_cons]
    exact decide_eq_true hf

/-- C3: `Text` is total; it is the content of the first choice when there is
one, independently of the later choices, and the empty string when the
response has no choices (or is nil). -/
theorem Text_spec (ch : ChatCompletionResponseChoice)
    (rest : List ChatCompletionResponseChoice) (u : ChatCompletionResponseUsage) :
    Text (some { Choices := ch :: rest, Usage := u }) = ch.Message.Content ∧
      Text (some { Choices := [], Usage := u }) = "" ∧
      Text none = "" :=
  ⟨Text_cons ch rest u, rfl, rfl⟩

/-- C4: a nil response and a zero-valued response give the same answers:
`Text` is empty, `Role` is "assistant", `CanContinue` is false, `TotalTokens`
is 0, and `Reset` leaves each of them as it was. -/
theorem nil_and_zero_agree :
    (Text none = "" ∧ Text (some {}) = "") ∧
      (Role none = "assistant" ∧ Role (some {}) = "assistant") ∧
      (CanContinue none = false ∧ CanContinue (some {}) = false) ∧
      (TotalTokens none = 0 ∧ TotalTokens (some {}) = 0) ∧
      (Reset none = none ∧ Reset (some {}) = some {}) := by
  refine ⟨⟨rfl, rfl⟩, ⟨rfl, rfl⟩, ⟨rfl, rfl⟩, ⟨rfl, rfl⟩, ⟨rfl, rfl⟩⟩

/-- C5: resetting any non-nil response leaves the zero value (no choices, 0
total tokens), so every accessor answers as on a freshly constructed instance. -/
theorem Reset_restores_zero (r : ChatCompletionResponse) :
    Reset (some r) = some {} ∧
      (Reset (some r)).map (fun z => z.Choices) = some [] ∧
      TotalTokens (Reset (some r)) = 0 ∧
      Text (Reset (some r)) = Text (some {}) ∧
      Role (Reset (some r)) = Role (some {}) ∧
      CanContinue (Reset (some r)) = CanContinue (some {}) ∧
      TotalTokens (Reset (some r)) = TotalTokens (some {}) := by
  refine ⟨rfl, rfl, rfl, rfl, rfl, rfl, rfl⟩

end ChatCompletionResponse

/-! ## The prompt assembly loop -/

/-- Loop invariant of the prompt assembly: after the messages from index `n` on
have been written, the slots below `n` are unchanged and the slots from `n` on
hold the contents of those messages. -/
theorem assemble_foldl (l : List ChatCompletionMessage) :
    ∀ (n : Nat) (acc : List String), acc.length = n + l.length →
      (l.enumFrom n).foldl (fun text iv => text.set iv.1 iv.2.Content) acc =
        acc.take n ++ l.map (fun m => m.Content) := by
  induction l with
  | nil =>
    intro n acc h
    simp at h
    simp [List.take_of_length_le (Nat.le_of_eq h)]
  | cons a l ih =>
    intro n acc h
    simp only [List.enumFrom_cons, List.foldl_cons, List.map_cons]
    rw [ih (n + 1) (acc.set n a.Content) (by simp [h]; omega)]
    have hn : n < acc.length := by simp [h]
    have htake : (acc.set n a.Content).take n = acc.take n := by
      rw [List.set_take, List.set_eq_of_length_le (by simp)]
    rw [List.take_succ, htake]
    simp [hn]

/-- The assembly loop computes exactly the list of message contents. -/
theorem assembleText_eq_map (say : List ChatCompletionMessage) :
    assembleText say = say.map (fun m => m.Content) := by
  unfold assembleText List.enum
  rw [assemble_foldl say 0 _ (by simp)]
  simp

/-! ## The dispatcher -/

section DispatcherProofs

variable {ρ : Type}

/-- A non-empty slice has non-zero length. -/
theorem length_ne_zero_of_ne_nil {say : List ChatCompletionMessage} (hne : say ≠ []) :
    say.length ≠ 0 := by
  intro h
  exact hne (List.length_eq_zero.mp h)

/-- The calls `DoOnce` makes in the chat-capable branch. -/
theorem DoOnce_chat_calls (E1 E2 : EngineType) (c : GPT3client ρ)
    (say : List ChatCompletionMessage) (hne : say ≠ [])
    (hchat : c.client.DefaultEngine = E1 ∨ c.client.DefaultEngine = E2) :
    calls (GPT3client.DoOnce E1 E2 c say).trace =
      [ClientCall.ChatCompletion
        { Model := E1, Messages := say, MaxTokens := some c.maxtokens }] := by
  have hlen := length_ne_zero_of_ne_nil hne
  simp [GPT3client.DoOnce, hlen, hchat, calls, IntPtr]

/-- The calls `DoStream` makes in the chat-capable branch. -/
theorem DoStream_chat_calls (E1 E2 : EngineType) (c : GPT3client ρ)
    (say : List ChatCompletionMessage) (hne : say ≠ [])
    (hchat : c.client.DefaultEngine = E1 ∨ c.client.DefaultEngine = E2) :
    calls (GPT3client.DoStream E1 E2 c say).trace =
      [ClientCall.ChatCompletionStream
        { Model := c.client.DefaultEngine, Messages := say,
          MaxTokens := some c.maxtokens }] := by
  have hlen := length_ne_zero_of_ne_nil hne
  simp only [GPT3client.DoStream, hlen, hchat, if_true, if_false, IntPtr]
  simp [calls]

/-- The calls `DoOnce` makes in the legacy branch. -/
theorem DoOnce_legacy_calls (E1 E2 : EngineType) (c : GPT3client ρ)
    (m : ChatCompletionMessage) (rest : List ChatCompletionMessage)
    (hlegacy : c.client.DefaultEngine ≠ E1 ∧ c.client.DefaultEngine ≠ E2) :
    calls (GPT3client.DoOnce E1 E2 c (m :: rest)).trace =
      [ClientCall.Completion { Prompt := [m.Content], MaxTokens := some c.maxtokens }] := by
  simp [GPT3client.DoOnce, hlegacy.1, hlegacy.2, calls, IntPtr]

/-- The calls `DoStream` makes in the legacy branch. -/
theorem DoStream_legacy_calls (E1 E2 : EngineType) (c : GPT3client ρ)
    (say : List ChatCompletionMessage) (hne : say ≠ [])
    (hlegacy : c.client.DefaultEngine ≠ E1 ∧ c.client.DefaultEngine ≠ E2) :
    calls (GPT3client.DoStream E1 E2 c say).trace =
      [ClientCall.CompletionStream
        { Prompt := assembleText say, MaxTokens := some c.maxtokens }] := by
  have hlen := length_ne_zero_of_ne_nil hne
  simp only [GPT3client.DoStream, hlen, hlegacy.1, hlegacy.2, or_self, if_false, IntPtr]
  simp [calls]

/-- On a non-empty input the error of `DoOnce` is the client's. -/
theorem DoOnce_err_ofClient (E1 E2 : EngineType) (c : GPT3client ρ)
    (say : List ChatCompletionMessage) (hne : say ≠ []) (text : String) :
    (GPT3client.DoOnce E1 E2 c say).err ≠ some (GoError.errorsNew text) := by
  have hlen := length_ne_zero_of_ne_nil hne
  unfold GPT3client.DoOnce
  rw [dif_neg hlen]
  split <;> simp

/-- On a non-empty input the error of `DoStream` is the client's. -/
theorem DoStream_err_ofClient (E1 E2 : EngineType) (c : GPT3client ρ)
    (say : List ChatCompletionMessage) (hne : say ≠ []) (text : String) :
    (GPT3client.DoStream E1 E2 c say).err ≠ some (GoError.errorsNew text) := by
  have hlen := length_ne_zero_of_ne_nil hne
  unfold GPT3client.DoStream
  rw [if_neg hlen]
  split <;> simp

/-- C6: on an empty message sequence `DoOnce` returns no response and the
validation error, `DoStream` returns the validation error, and neither performs
any effect: no client method is called and the streaming callback is never
invoked. Conversely an error made by the dispatcher itself is returned only for
the empty sequence. -/
theorem empty_say_rejected (E1 E2 : EngineType) (c : GPT3client ρ)
    (say : List ChatCompletionMessage) :
    ((GPT3client.DoOnce E1 E2 c []).response = none ∧
        (GPT3client.DoOnce E1 E2 c []).err = some (GoError.errorsNew emptySayText) ∧
        (GPT3client.DoOnce E1 E2 c []).trace = []) ∧
      ((GPT3client.DoStream E1 E2 c []).err = some (GoError.errorsNew emptySayText) ∧
        (GPT3client.DoStream E1 E2 c []).trace = []) ∧
      (calls (GPT3client.DoOnce E1 E2 c []).trace = [] ∧
        calls (GPT3client.DoStream E1 E2 c []).trace = [] ∧
        callbacks (GPT3client.DoStream E1 E2 c []).trace = []) ∧
      ((∃ text, (GPT3client.DoOnce E1 E2 c say).err = some (GoError.errorsNew text)) ↔
        say = []) ∧
      ((∃ text, (GPT3client.DoStream E1 E2 c say).err = some (GoError.errorsNew text)) ↔
        say = []) := by
  refine ⟨⟨rfl, rfl, rfl⟩, ⟨rfl, rfl⟩, ⟨rfl, rfl, rfl⟩, ?_, ?_⟩
  · constructor
    · rintro ⟨text, h⟩
      by_contra hne
      exact DoOnce_err_ofClient E1 E2 c say hne text h
    · rintro rfl
      exact ⟨emptySayText, rfl⟩
  · constructor
    · rintro ⟨text, h⟩
      by_contra hne
      exact DoStream_err_ofClient E1 E2 c say hne text h
    · rintro rfl
      exact ⟨emptySayText, rfl⟩

/-- C7: with a chat-capable engine configured and a non-empty message sequence,
`DoOnce` makes exactly one client call, to `ChatCompletion`, and `DoStream`
makes exactly one, to `ChatCompletionStream`; in both the request's `Messages`
is the input sequence itself (same length, same order, same roles and contents). -/
theorem chat_branch_forwards_messages (E1 E2 : EngineType) (c : GPT3client ρ)
    (say : List ChatCompletionMessage) (hne : say ≠ [])
    (hchat : c.client.DefaultEngine = E1 ∨ c.client.DefaultEngine = E2) :
    (∃ req, calls (GPT3client.DoOnce E1 E2 c say).trace = [ClientCall.ChatCompletion req] ∧
        req.Messages = say) ∧
      (∃ req, calls (GPT3client.DoStream E1 E2 c say).trace =
          [ClientCall.ChatCompletionStream req] ∧
        req.Messages = say) :=
  ⟨⟨_, DoOnce_chat_calls E1 E2 c say hne hchat, rfl⟩,
    ⟨_, DoStream_chat_calls E1 E2 c say hne hchat, rfl⟩⟩

/-- Witness for C7: the 0301 engine with a two-message conversation. -/
theorem chat_branch_forwards_messages_witness :
    sampleSay ≠ [] ∧
      ((echoClient "gpt-3.5-turbo-0301").DefaultEngine = "gpt-3.5-turbo" ∨
        (echoClient "gpt-3.5-turbo-0301").DefaultEngine = "gpt-3.5-turbo-0301") ∧
      ((∃ req, calls (GPT3client.DoOnce "gpt-3.5-turbo" "gpt-3.5-turbo-0301"
            ⟨echoClient "gpt-3.5-turbo-0301", 256⟩ sampleSay).trace =
            [ClientCall.ChatCompletion req] ∧
          req.Messages = sampleSay) ∧
        (∃ req, calls (GPT3client.DoStream "gpt-3.5-turbo" "gpt-3.5-turbo-0301"
            ⟨echoClient "gpt-3.5-turbo-0301", 256⟩ sampleSay).trace =
            [ClientCall.ChatCompletionStream req] ∧
          req.Messages = sampleSay)) :=
  ⟨by decide, Or.inr rfl,
    chat_branch_forwards_messages "gpt-3.5-turbo" "gpt-3.5-turbo-0301"
      ⟨echoClient "gpt-3.5-turbo-0301", 256⟩ sampleSay (by decide) (Or.inr rfl)⟩

/-- C8: with an engine outside the chat-capable family and a non-empty message
sequence, `DoOnce` makes exactly one client call, to `Completion`, whose
`Prompt` is the one-element sequence holding the content of the first message;
replacing the messages after the first changes nothing. -/
theorem legacy_once_first_message_only (E1 E2 : EngineType) (c : GPT3client ρ)
    (say : List ChatCompletionMessage) (hne : say ≠ [])
    (hlegacy : c.client.DefaultEngine ≠ E1 ∧ c.client.DefaultEngine ≠ E2) :
    (∃ req, calls (GPT3client.DoOnce E1 E2 c say).trace = [ClientCall.Completion req] ∧
        req.Prompt = [(say.head hne).Content]) ∧
      ∀ later : List ChatCompletionMessage,
        calls (GPT3client.DoOnce E1 E2 c (say.head hne :: later)).trace =
          calls (GPT3client.DoOnce E1 E2 c say).trace := by
  obtain ⟨m, rest, rfl⟩ := List.exists_cons_of_ne_nil hne
  refine ⟨⟨_, DoOnce_legacy_calls E1 E2 c m rest hlegacy, rfl⟩, ?_⟩
  intro later
  rw [List.head_cons, DoOnce_legacy_calls E1 E2 c m rest hlegacy,
    DoOnce_legacy_calls E1 E2 c m later hlegacy]

/-- Witness for C8: a legacy engine with a two-message conversation. -/
theorem legacy_once_first_message_only_witness :
    ((echoClient "davinci").DefaultEngine ≠ "gpt-3.5-turbo" ∧
        (echoClient "davinci").DefaultEngine ≠ "gpt-3.5-turbo-0301") ∧
      ∃ hne : sampleSay ≠ [],
        (∃ req, calls (GPT3client.DoOnce "gpt-3.5-turbo" "gpt-3.5-turbo-0301"
            ⟨echoClient "davinci", 256⟩ sampleSay).trace = [ClientCall.Completion req] ∧
          req.Prompt = [(sampleSay.head hne).Content]) ∧
        ∀ later : List ChatCompletionMessage,
          calls (GPT3client.DoOnce "gpt-3.5-turbo" "gpt-3.5-turbo-0301"
            ⟨echoClient "davinci", 256⟩ (sampleSay.head hne :: later)).trace =
          calls (GPT3client.DoOnce "gpt-3.5-turbo" "gpt-3.5-turbo-0301"
            ⟨echoClient "davinci", 256⟩ sampleSay).trace :=
  ⟨by decide, by decide,
    legacy_once_first_message_only "gpt-3.5-turbo" "gpt-3.5-turbo-0301"
      ⟨echoClient "davinci", 256⟩ sampleSay (by decide) (by decide)⟩

/-- C9: with an engine outside the chat-capable family and a non-empty message
sequence, `DoStream` makes exactly one client call, to `CompletionStream`, whose
`Prompt` has the length of the input and holds at every index the content of
the message at that index. -/
theorem legacy_stream_prompt_per_message (E1 E2 : EngineType) (c : GPT3client ρ)
    (say : List ChatCompletionMessage) (hne : say ≠ [])
    (hlegacy : c.client.DefaultEngine ≠ E1 ∧ c.client.DefaultEngine ≠ E2) :
    ∃ req, calls (GPT3client.DoStream E1 E2 c say).trace =
        [ClientCall.CompletionStream req] ∧
      req.Prompt.length = say.length ∧
      (∀ i : Nat, req.Prompt[i]? = say[i]?.map (fun m => m.Content)) ∧
      req.Prompt = say.map (fun m => m.Content) := by
  refine ⟨_, DoStream_legacy_calls E1 E2 c say hne hlegacy, ?_, ?_, ?_⟩
  · simp [assembleText_eq_map]
  · intro i
    simp [assembleText_eq_map]
  · simp [assembleText_eq_map]

/-- Witness for C9: a legacy engine with a two-message conversation. -/
theorem legacy_stream_prompt_per_message_witness :
    sampleSay ≠ [] ∧
      ((echoClient "davinci").DefaultEngine ≠ "gpt-3.5-turbo" ∧
        (echoClient "davinci").DefaultEngine ≠ "gpt-3.5-turbo-0301") ∧
      ∃ req, calls (GPT3client.DoStream "gpt-3.5-turbo" "gpt-3.5-turbo-0301"
          ⟨echoClient "davinci", 256⟩ sampleSay).trace =
          [ClientCall.CompletionStream req] ∧
        req.Prompt.length = sampleSay.length ∧
        (∀ i : Nat, req.Prompt[i]? = sampleSay[i]?.map (fun m => m.Content)) ∧
        req.Prompt = sampleSay.map (fun m => m.Content) :=
  ⟨by decide, by decide,
    legacy_stream_prompt_per_message "gpt-3.5-turbo" "gpt-3.5-turbo-0301"
      ⟨echoClient "davinci", 256⟩ sampleSay (by decide) (by decide)⟩

/-- C10: in the chat-capable branch, for a non-empty message sequence, the
request `DoStream` sends has `Model` equal to the configured engine while the
request `DoOnce` sends has `Model` equal to the constant `Gpt35TurboEngine`
(here `E1`); both carry the configured max-token value. Hence with
`Gpt35Turbo0301Engine` (here `E2`, distinct from `E1`) configured, `DoOnce` sends
a model other than the configured one and `DoStream` sends the configured one. -/
theorem chat_branch_model_disagreement (E1 E2 : EngineType) (c : GPT3client ρ)
    (say : List ChatCompletionMessage) (hne : say ≠ [])
    (hchat : c.client.DefaultEngine = E1 ∨ c.client.DefaultEngine = E2) :
    ∃ rs ro, calls (GPT3client.DoStream E1 E2 c say).trace =
        [ClientCall.ChatCompletionStream rs] ∧
      calls (GPT3client.DoOnce E1 E2 c say).trace = [ClientCall.ChatCompletion ro] ∧
      rs.Model = c.client.DefaultEngine ∧
      ro.Model = E1 ∧
      rs.MaxTokens = some c.maxtokens ∧
      ro.MaxTokens = some c.maxtokens ∧
      (c.client.DefaultEngine = E2 → E2 ≠ E1 →
        ro.Model ≠ c.client.DefaultEngine ∧ rs.Model = c.client.DefaultEngine ∧
          ro.Model ≠ rs.Model) := by
  refine ⟨_, _, DoStream_chat_calls E1 E2 c say hne hchat,
    DoOnce_chat_calls E1 E2 c say hne hchat, rfl, rfl, rfl, rfl, ?_⟩
  intro h2 hdist
  simp only [h2]
  exact ⟨fun h => hdist h.symm, trivial, fun h => hdist h.symm⟩

/-- Witness for C10: the 0301 engine configured, two distinct engine constants. -/
theorem chat_branch_model_disagreement_witness :
    sampleSay ≠ [] ∧
      ((echoClient "gpt-3.5-turbo-0301").DefaultEngine = "gpt-3.5-turbo" ∨
        (echoClient "gpt-3.5-turbo-0301").DefaultEngine = "gpt-3.5-turbo-0301") ∧
      ∃ rs ro, calls (GPT3client.DoStream "gpt-3.5-turbo" "gpt-3.5-turbo-0301"
          ⟨echoClient "gpt-3.5-turbo-0301", 256⟩ sampleSay).trace =
          [ClientCall.ChatCompletionStream rs] ∧
        calls (GPT3client.DoOnce "gpt-3.5-turbo" "gpt-3.5-turbo-0301"
          ⟨echoClient "gpt-3.5-turbo-0301", 256⟩ sampleSay).trace =
          [ClientCall.ChatCompletion ro] ∧
        rs.Model = "gpt-3.5-turbo-0301" ∧
        ro.Model = "gpt-3.5-turbo" ∧
        ro.Model ≠ rs.Model := by
  refine ⟨by decide, Or.inr rfl, ?_⟩
  obtain ⟨rs, ro, h1, h2, h3, h4, _, _, h7⟩ :=
    chat_branch_model_disagreement "gpt-3.5-turbo" "gpt-3.5-turbo-0301"
      ⟨echoClient "gpt-3.5-turbo-0301", 256⟩ sampleSay (by decide) (Or.inr rfl)
  exact ⟨rs, ro, h1, h2, h3, h4, (h7 rfl (by decide)).2.2⟩

end DispatcherProofs

end Gpt3
